import Mathlib

/-!
Verification of `local-server.py`: a minimal local HTTP file server that
extends Python's `http.server.SimpleHTTPRequestHandler` with two overrides
(`end_headers` and `guess_type`) and a fixed top-level startup sequence.

The embedding is shallow:
* `guess_type` is modelled as a pure function parametrised by the base
  handler's guess function (the base handler lives in the Python standard
  library, outside this repository, so it is kept abstract).
* `end_headers` is modelled as the finite list of primitive handler actions
  the override performs, together with a small semantics that applies those
  actions to the queue of headers the base handler has already sent.
* The module top level is modelled as the trace of observable events a run
  produces, as a function of the command line, the environment and whether
  TCP port 8000 can be bound.
-/

namespace LocalServer

/-- Python's `str.endswith`: `strEndsWith p s` is true when the character
sequence of `s` is a suffix of the character sequence of `p`
(case-sensitive, exact). -/
def strEndsWith (p s : String) : Bool :=
  p.data.reverse.take s.data.length == s.data.reverse

/-- `MyHTTPRequestHandler.guess_type` from `local-server.py`:
compute the base handler's guess, then force `application/javascript`
whenever the path ends with the literal suffix `.js`, otherwise return the
base guess unchanged.  `superGuess` abstracts `super().guess_type`. -/
def guess_type (superGuess : String → String) (path : String) : String :=
  let mimetype := superGuess path
  if strEndsWith path ".js" then "application/javascript"
  else mimetype

/-- Modelled from the spec: the base handler's fallback default guess for
unknown extensions, `application/octet-stream`; used as one concrete
instantiation of the abstract base guess function. -/
def octetGuess : String → String := fun _ => "application/octet-stream"

/-- Modelled from the spec: "the path's extension (the final dot-suffix, as
an extension)" with a "bare filename `.js` whose extension is empty" —
`posixpath.splitext` semantics used by the base handler, which is not in
this repository.  The extension is the part of the last path component from
its last dot, except that a dot with only dots before it in that component
starts no extension. -/
def pathExtension (p : String) : String :=
  let basename := ((p.data.reverse.takeWhile (fun c => c ≠ '/')).reverse)
  let rev := basename.reverse
  let afterDot := rev.takeWhile (fun c => c ≠ '.')
  if afterDot.length = rev.length then String.mk []
  else
    let pre := basename.take (basename.length - afterDot.length - 1)
    if pre.any (fun c => c ≠ '.') then String.mk ('.' :: afterDot.reverse)
    else String.mk []

end LocalServer

open LocalServer

example : LocalServer.strEndsWith "app.js" ".js" = true := by decide
example : LocalServer.strEndsWith "app.JS" ".js" = false := by decide
example : LocalServer.strEndsWith ".js" ".js" = true := by decide
example : LocalServer.pathExtension "a.js" = ".js" := by decide
example : LocalServer.pathExtension ".js" = "" := by decide
example : LocalServer.pathExtension "/dir/app.js" = ".js" := by decide
example : LocalServer.pathExtension "noext" = "" := by decide
example : LocalServer.guess_type LocalServer.octetGuess ".js" = "application/javascript" := by decide

/-- C1: for every request path ending in the case-sensitive exact suffix
`.js`, the overridden content-type inference returns
`application/javascript`, whatever the base handler's mapping reports. -/
theorem guess_type_js_suffix (superGuess : String → String) (path : String)
    (h : strEndsWith path ".js" = true) :
    LocalServer.guess_type superGuess path = "application/javascript" := by
  unfold LocalServer.guess_type
  simp [h]

/-- Witness for C1 at the concrete path `app.js` and a base mapping that
would report `application/octet-stream`. -/
theorem guess_type_js_suffix_witness :
    (strEndsWith "app.js" ".js" = true) ∧
      LocalServer.guess_type LocalServer.octetGuess "app.js" =
        "application/javascript" :=
  ⟨by decide, guess_type_js_suffix LocalServer.octetGuess "app.js" (by decide)⟩

/-- C4: for every request path that does not end in `.js`, the overridden
inference returns exactly the base handler's guessed value, unchanged. -/
theorem guess_type_non_js (superGuess : String → String) (path : String)
    (h : strEndsWith path ".js" = false) :
    LocalServer.guess_type superGuess path = superGuess path := by
  unfold LocalServer.guess_type
  simp [h]

/-- Witness for C4 at the concrete path `index.html`. -/
theorem guess_type_non_js_witness :
    (strEndsWith "index.html" ".js" = false) ∧
      LocalServer.guess_type LocalServer.octetGuess "index.html" =
        LocalServer.octetGuess "index.html" :=
  ⟨by decide, guess_type_non_js LocalServer.octetGuess "index.html" (by decide)⟩

/-- C5 counterexample: the bare filename `.js` has an empty extension, yet
the code (which tests the raw suffix, not the extension) forces
`application/javascript` instead of returning the default guess unchanged. -/
theorem guess_type_bare_js_counterexample :
    LocalServer.pathExtension ".js" ≠ ".js" ∧
      LocalServer.guess_type LocalServer.octetGuess ".js" =
        "application/javascript" ∧
      LocalServer.guess_type LocalServer.octetGuess ".js" ≠
        LocalServer.octetGuess ".js" := by
  refine ⟨by decide, by decide, by decide⟩

/-- C5 amended: the inference returns `application/javascript` iff the path
ends with the case-sensitive suffix `.js` (a bare `.js` included) or the
base guess already is `application/javascript`; whenever the suffix test
fails, the base guess is returned unchanged. -/
theorem guess_type_iff_suffix (superGuess : String → String) (path : String) :
    (LocalServer.guess_type superGuess path = "application/javascript" ↔
      (strEndsWith path ".js" = true ∨ superGuess path = "application/javascript"))
    ∧ (strEndsWith path ".js" = false →
        LocalServer.guess_type superGuess path = superGuess path) := by
  unfold LocalServer.guess_type
  cases h : strEndsWith path ".js" <;> simp [h]

/-- Witness for C5 amended at the concrete path `style.css`. -/
theorem guess_type_iff_suffix_witness :
    LocalServer.guess_type LocalServer.octetGuess "style.css" =
      LocalServer.octetGuess "style.css" :=
  (guess_type_iff_suffix LocalServer.octetGuess "style.css").2 (by decide)

namespace LocalServer

/-- An HTTP response header: a name and a value. -/
structure Header where
  name : String
  value : String
deriving DecidableEq, Repr

/-- A primitive action the handler can perform while finalizing headers:
`self.send_header(name, value)` queues one header; `super().end_headers()`
delegates to the base handler, which emits the blank line terminating the
header block. -/
inductive HandlerAction where
  | sendHeader (name value : String)
  | superEndHeaders
deriving DecidableEq, Repr

/-- The three fixed security headers of `MyHTTPRequestHandler.end_headers`,
in source order. -/
def securityHeaders : List Header :=
  [⟨"X-Content-Type-Options", "nosniff"⟩,
   ⟨"X-Frame-Options", "DENY"⟩,
   ⟨"X-XSS-Protection", "1; mode=block"⟩]

/-- `MyHTTPRequestHandler.end_headers` from `local-server.py`, as the exact
sequence of primitive actions its body performs: three `send_header` calls
followed by the delegation to the base class. -/
def end_headersActions : List HandlerAction :=
  [HandlerAction.sendHeader "X-Content-Type-Options" "nosniff",
   HandlerAction.sendHeader "X-Frame-Options" "DENY",
   HandlerAction.sendHeader "X-XSS-Protection" "1; mode=block",
   HandlerAction.superEndHeaders]

/-- The observable state of one response's header block: the headers queued
so far and whether the terminating blank line has been emitted. -/
structure WireState where
  queued : List Header
  terminated : Bool
deriving DecidableEq, Repr

/-- Semantics of one primitive handler action on the header block. -/
def applyAction (s : WireState) (a : HandlerAction) : WireState :=
  match a with
  | HandlerAction.sendHeader n v => { s with queued := s.queued ++ [⟨n, v⟩] }
  | HandlerAction.superEndHeaders => { s with terminated := true }

/-- Running `MyHTTPRequestHandler.end_headers` on a response whose base
handler has already queued the headers `prior`. -/
def end_headers (prior : List Header) : WireState :=
  end_headersActions.foldl applyAction ⟨prior, false⟩

/-- How many headers named `n` the list holds. -/
def countName (n : String) (hs : List Header) : Nat :=
  hs.countP (fun h => h.name == n)

theorem end_headers_queued (prior : List Header) :
    (end_headers prior).queued = prior ++ securityHeaders := by
  simp [end_headers, end_headersActions, applyAction, securityHeaders]

theorem end_headers_terminated (prior : List Header) :
    (end_headers prior).terminated = true := by
  simp [end_headers, end_headersActions, applyAction]

end LocalServer

example : (LocalServer.end_headers []).queued = LocalServer.securityHeaders := by decide
example : LocalServer.countName "X-Frame-Options" (LocalServer.end_headers []).queued = 1 := by decide

/-- C2: on every response whose previously queued headers (the base
handler's standard ones) do not already use the three security header
names, the finalized header block holds `X-Content-Type-Options: nosniff`,
`X-Frame-Options: DENY` and `X-XSS-Protection: 1; mode=block` each exactly
once, and in that relative order among themselves. -/
theorem end_headers_security_once_ordered (prior : List LocalServer.Header)
    (hprior : ∀ h ∈ prior, h.name ≠ "X-Content-Type-Options" ∧
      h.name ≠ "X-Frame-Options" ∧ h.name ≠ "X-XSS-Protection") :
    LocalServer.countName "X-Content-Type-Options"
        (LocalServer.end_headers prior).queued = 1 ∧
    LocalServer.countName "X-Frame-Options"
        (LocalServer.end_headers prior).queued = 1 ∧
    LocalServer.countName "X-XSS-Protection"
        (LocalServer.end_headers prior).queued = 1 ∧
    LocalServer.securityHeaders.Sublist (LocalServer.end_headers prior).queued := by
  rw [LocalServer.countName, LocalServer.countName, LocalServer.countName,
    LocalServer.end_headers_queued]
  have hzero : ∀ n : String, (∀ h ∈ prior, h.name ≠ n) →
      prior.countP (fun h => h.name == n) = 0 := by
    intro n hn
    rw [List.countP_eq_zero]
    intro h hmem
    simpa using hn h hmem
  refine ⟨?_, ?_, ?_, List.sublist_append_right prior LocalServer.securityHeaders⟩ <;>
    rw [List.countP_append] <;>
    [rw [hzero _ (fun h hm => (hprior h hm).1)];
     rw [hzero _ (fun h hm => (hprior h hm).2.1)];
     rw [hzero _ (fun h hm => (hprior h hm).2.2)]] <;>
    decide

/-- Witness for C2: one concrete response whose base handler queued a
`Content-Type` and a `Content-Length` header. -/
theorem end_headers_security_once_ordered_witness :
    LocalServer.countName "X-Frame-Options"
        (LocalServer.end_headers
          [⟨"Content-Type", "text/html"⟩, ⟨"Content-Length", "13"⟩]).queued = 1 :=
  (end_headers_security_once_ordered
    [⟨"Content-Type", "text/html"⟩, ⟨"Content-Length", "13"⟩]
    (by decide)).2.1

/-- C3: header finalization never adds a `Content-Security-Policy` header;
if the previously queued headers contain none, no header of the finalized
response is named `Content-Security-Policy`. -/
theorem end_headers_no_csp (prior : List LocalServer.Header)
    (hprior : ∀ h ∈ prior, h.name ≠ "Content-Security-Policy") :
    ∀ h ∈ (LocalServer.end_headers prior).queued,
      h.name ≠ "Content-Security-Policy" := by
  rw [LocalServer.end_headers_queued]
  intro h hmem
  rcases List.mem_append.mp hmem with hl | hr
  · exact hprior h hl
  · simp only [LocalServer.securityHeaders, List.mem_cons, List.mem_singleton,
      List.not_mem_nil, or_false] at hr
    rcases hr with rfl | rfl | rfl <;> decide

/-- Witness for C3 on a concrete response with one base header queued,
instantiated at one concrete header of the finalized block. -/
theorem end_headers_no_csp_witness :
    LocalServer.Header.name ⟨"X-Frame-Options", "DENY"⟩ ≠
      "Content-Security-Policy" :=
  end_headers_no_csp [⟨"Content-Type", "text/css"⟩] (by decide)
    ⟨"X-Frame-Options", "DENY"⟩ (by decide)

/-- C8: `end_headers` first performs the three fixed security-header
`send_header` calls, in order, and then delegates to the base handler's
finalization exactly once, as its last action; the delegation is what marks
the header block terminated. -/
theorem end_headers_appends_then_delegates :
    LocalServer.end_headersActions.take 3 =
      LocalServer.securityHeaders.map
        (fun h => LocalServer.HandlerAction.sendHeader h.name h.value) ∧
    LocalServer.end_headersActions.drop 3 =
      [LocalServer.HandlerAction.superEndHeaders] ∧
    LocalServer.end_headersActions.count
      LocalServer.HandlerAction.superEndHeaders = 1 ∧
    (∀ prior, (LocalServer.end_headers prior).terminated = true) :=
  ⟨by decide, by decide, by decide, LocalServer.end_headers_terminated⟩

/-- C10: header finalization is a pure frame extension — the finalized
block is exactly the previously queued headers, unchanged and in order,
followed by the three fixed security headers, followed by the terminating
blank line. -/
theorem end_headers_frame (prior : List LocalServer.Header) :
    (LocalServer.end_headers prior).queued =
        prior ++ LocalServer.securityHeaders ∧
      (LocalServer.end_headers prior).terminated = true :=
  ⟨LocalServer.end_headers_queued prior, LocalServer.end_headers_terminated prior⟩

namespace LocalServer

/-- An observable event of one process run of `local-server.py`'s module
top level. -/
inductive ServerEvent where
  | print (line : String)
  | bindAttempt (port : Nat)
  | serveForever
  | unhandledError
deriving DecidableEq, Repr

/-- `PORT = 8000` from `local-server.py`. -/
def PORT : Nat := 8000

/-- The first printed line, `f"서버 시작: http://localhost:{PORT}"`. -/
def serverStartLine : String := "서버 시작: http://localhost:" ++ toString PORT

/-- The second printed line, the informational note about the emulated
hosting behaviour. -/
def infoLine : String := "이 서버는 Vercel 배포 환경과 유사한 조건으로 실행됩니다."

/-- The third printed line, the instruction for how to stop the server. -/
def stopLine : String := "Ctrl+C로 종료하세요."

/-- The three startup lines in the order the module prints them. -/
def startupLines : List String := [serverStartLine, infoLine, stopLine]

/-- The module top level of `local-server.py` as the trace of observable
events of one run: it reads neither `args` nor `env`; it prints the three
startup lines, then attempts to bind `TCPServer(("", PORT))`; on success it
serves forever, and if the port is unavailable the constructor's error is
unhandled and the process dies. -/
def main (args : List String) (env : List (String × String))
    (portAvailable : Bool) : List ServerEvent :=
  startupLines.map ServerEvent.print ++ [ServerEvent.bindAttempt PORT] ++
    (if portAvailable then [ServerEvent.serveForever]
     else [ServerEvent.unhandledError])

/-- The line printed by an event, if it is a print. -/
def printedLine : ServerEvent → Option String
  | ServerEvent.print s => some s
  | _ => none

/-- Whether an event is a print. -/
def isPrint (e : ServerEvent) : Bool := (printedLine e).isSome

/-- Whether an event is a bind attempt. -/
def isBindAttempt : ServerEvent → Bool
  | ServerEvent.bindAttempt _ => true
  | _ => false

end LocalServer

example : LocalServer.main [] [] true =
    [LocalServer.ServerEvent.print LocalServer.serverStartLine,
     LocalServer.ServerEvent.print LocalServer.infoLine,
     LocalServer.ServerEvent.print LocalServer.stopLine,
     LocalServer.ServerEvent.bindAttempt 8000,
     LocalServer.ServerEvent.serveForever] := by decide

/-- C6 counterexample: on the run where port 8000 is already in use, the
process does print the server-started line (all three startup lines appear
before the bind attempt), so it does not terminate before that message is
printed. -/
theorem port_in_use_prints_banner_first :
    LocalServer.main [] [] false =
      [LocalServer.ServerEvent.print LocalServer.serverStartLine,
       LocalServer.ServerEvent.print LocalServer.infoLine,
       LocalServer.ServerEvent.print LocalServer.stopLine,
       LocalServer.ServerEvent.bindAttempt 8000,
       LocalServer.ServerEvent.unhandledError] ∧
    LocalServer.ServerEvent.print LocalServer.serverStartLine ∈
      LocalServer.main [] [] false := by
  refine ⟨by decide, by decide⟩

/-- C6 amended: if port 8000 is already in use the bind fails with an
unhandled error and the process terminates without ever serving, with no
retry and no alternate port — but only after the three startup lines
(including the server-started message) have been printed, since the prints
precede the bind attempt. -/
theorem port_in_use_fails_after_banner (args : List String)
    (env : List (String × String)) :
    (LocalServer.main args env false).getLast? =
        some LocalServer.ServerEvent.unhandledError ∧
    LocalServer.ServerEvent.serveForever ∉ LocalServer.main args env false ∧
    (LocalServer.main args env false).countP LocalServer.isBindAttempt = 1 ∧
    (∀ p, LocalServer.ServerEvent.bindAttempt p ∈ LocalServer.main args env false →
      p = LocalServer.PORT) ∧
    (LocalServer.main args env false).take 3 =
      LocalServer.startupLines.map LocalServer.ServerEvent.print := by
  have hm : LocalServer.main args env false =
      [LocalServer.ServerEvent.print LocalServer.serverStartLine,
       LocalServer.ServerEvent.print LocalServer.infoLine,
       LocalServer.ServerEvent.print LocalServer.stopLine,
       LocalServer.ServerEvent.bindAttempt 8000,
       LocalServer.ServerEvent.unhandledError] := rfl
  rw [hm]
  refine ⟨by decide, by decide, by decide, ?_, by decide⟩
  intro p hp
  simp only [List.mem_cons, List.not_mem_nil, or_false] at hp
  rcases hp with h | h | h | h | h <;> cases h <;> rfl

/-- Witness for C6 amended, extracting the fixed-port fact at the concrete
bind attempt of the failing run. -/
theorem port_in_use_fails_after_banner_witness : 8000 = LocalServer.PORT :=
  (port_in_use_fails_after_banner [] []).2.2.2.1 8000 (by decide)

/-- C7: on every startup, whether the bind later succeeds or not, the lines
printed to standard output are exactly the URL announcement, the note about
the emulated hosting behaviour, and the stop instruction, in that order and
nothing else; all of them are printed before any further event. -/
theorem startup_prints_exactly_three_lines (args : List String)
    (env : List (String × String)) (portAvailable : Bool) :
    (LocalServer.main args env portAvailable).filterMap LocalServer.printedLine =
        [LocalServer.serverStartLine, LocalServer.infoLine, LocalServer.stopLine] ∧
    (LocalServer.main args env portAvailable).takeWhile LocalServer.isPrint =
        LocalServer.startupLines.map LocalServer.ServerEvent.print ∧
    LocalServer.serverStartLine =
        "서버 시작: http://localhost:" ++ toString LocalServer.PORT := by
  have hm : LocalServer.main args env portAvailable =
      LocalServer.main [] [] portAvailable := rfl
  rw [hm]
  cases portAvailable <;> exact ⟨by decide, by decide, by decide⟩

/-- C9: the module top level reads no command-line arguments and no
environment variables: any two runs with the same port availability produce
identical traces, whatever `args` and `env` are; in particular the
overridden operations behave identically across such runs. -/
theorem main_ignores_cli_and_env (args₁ : List String)
    (env₁ : List (String × String)) (args₂ : List String)
    (env₂ : List (String × String)) (portAvailable : Bool) :
    LocalServer.main args₁ env₁ portAvailable =
      LocalServer.main args₂ env₂ portAvailable := rfl
